import Mathlib

/-!
Verification development for the dataset-loading utility in
`src/utils/dataset.py` (class `TrainTestDataset`, functions `collate` and
`get_dataloader`).

Shallow embedding conventions:
* a text file is modelled by the list of its lines (newline characters
  already removed; `str.split()` / `str.strip()` are insensitive to them);
* a Python `dict` built by a comprehension is modelled as an association
  list in insertion order where a repeated key overwrites in place
  (`dictInsert`), lookup returns the stored value (`dictGet`) and
  `len(dict)` is the list length;
* a pandas `DataFrame` row obtained with `.iloc[i]` is a `Series`, modelled
  as the list of its (column label, cell) pairs, so Python `len(row)` is
  the number of columns of the frame;
* fallible operations return `Except String`, carrying the Python
  exception that would be raised;
* tensors are nested lists of rationals;
* the per-access random draw `np.random.randn()` is made explicit: the
  drawn value `r` is a parameter of the sample producer.
-/

set_option autoImplicit false

deriving instance DecidableEq for Except

namespace PdfToLatex

/-- Splitting a character list on runs of whitespace, accumulating the
current fragment in reverse. -/
def splitWsAux : List Char → List Char → List (List Char)
  | [], [] => []
  | [], acc => [acc.reverse]
  | c :: cs, acc =>
    if c.isWhitespace then
      match acc with
      | [] => splitWsAux cs []
      | _ => acc.reverse :: splitWsAux cs []
    else splitWsAux cs (c :: acc)

/-- Python `str.split()` with no argument: split on runs of whitespace and
drop empty fragments (leading and trailing whitespace ignored). -/
def pySplit (s : String) : List String :=
  (splitWsAux s.data []).map (fun l => String.mk l)

/-- Python `str.strip()`: remove leading and trailing whitespace. -/
def pyStrip (s : String) : String :=
  String.mk ((s.data.dropWhile Char.isWhitespace).reverse.dropWhile Char.isWhitespace).reverse

/-- Numeric value of a list of decimal digit characters. -/
def digitsVal (l : List Char) : Nat :=
  l.foldl (fun n c => n * 10 + (c.toNat - 48)) 0

/-- Python `int(s)` as used by `.astype(int)` on a string column
(line 35): optional surrounding whitespace, optional sign, decimal
digits; anything else raises `ValueError`. -/
def parsePyInt (s : String) : Except String Int :=
  let t := (pyStrip s).data
  let core := match t with
    | '-' :: rest => rest
    | '+' :: rest => rest
    | _ => t
  if core ≠ [] ∧ core.all Char.isDigit then
    let v : Int := Int.ofNat (digitsVal core)
    Except.ok (match t with
      | '-' :: _ => -v
      | _ => v)
  else
    Except.error ("ValueError: invalid literal for int() with base 10: " ++ s)

/-- Insertion into the model of a Python `dict`: an existing key is
overwritten in place, a new key is appended (insertion order). -/
def dictInsert (d : List (String × Nat)) (k : String) (v : Nat) : List (String × Nat) :=
  if d.any (fun p => p.1 = k) then
    d.map (fun p => if p.1 = k then (p.1, v) else p)
  else
    d ++ [(k, v)]

/-- Lookup in the model of a Python `dict`. -/
def dictGet (d : List (String × Nat)) (k : String) : Option Nat :=
  (d.find? (fun p => p.1 = k)).map Prod.snd

/-- Line 40: `self.vocab = {s.strip(): i for i, s in enumerate(strs)}`. -/
def buildVocab (vocabLines : List String) : List (String × Nat) :=
  ((vocabLines.map pyStrip).enum).foldl (fun d p => dictInsert d p.2 p.1) []

/-- One row of `self.data` (columns `image` and `idx`, line 34-35); the
`idx` column has been converted with `.astype(int)`. -/
structure DataRow where
  image : String
  idx : Int
deriving DecidableEq

/-- A row of the one-column `self.formulas` frame as returned by
`.iloc[i]`: a pandas `Series` holding the single cell labelled
`tokens`, modelled as its (label, cell) pairs.  Its Python `len` is the
number of columns, i.e. the length of this list. -/
abbrev FormulasRow := List (String × List String)

/-- Image model: only the size matters to the code under verification
(`Image.open(...).convert('L')`, `image.size`, `image.resize`). -/
structure Img where
  width : Nat
  height : Nat
deriving DecidableEq

/-- The state built by `TrainTestDataset.__init__` (lines 13-42). -/
structure DatasetState where
  formulas : List (List String)
  data : List DataRow
  vocab : List (String × Nat)
  image_dir : String
  transform : Option (Img → Img)

/-- Minimum number of fields over the split lines; `zip(*strs)`
truncates every row to this length. -/
def minLen (rows : List (List String)) : Nat :=
  match rows with
  | [] => 0
  | r :: rs => rs.foldl (fun m x => min m x.length) r.length

/-- `TrainTestDataset.__init__` (lines 13-42).

* Lines 24-27: each formula line is whitespace-split into its tokens and
  stored as one row of the one-column frame `self.formulas`.
* Lines 30-35: each data line is whitespace-split;
  `np.array(list(zip(*strs))).T` truncates every row to the minimum field
  count, and `pd.DataFrame(..., columns=['image', 'idx'])` raises
  `ValueError` unless that count is exactly 2 (an empty file gives a
  one-dimensional empty array, also rejected); `.astype(int)` parses the
  second column, raising `ValueError` on a malformed integer.
* Line 40: the vocabulary dict maps each stripped line to its 0-based
  line number, later duplicates overwriting earlier ones. -/
def TrainTestDataset.init (dataLines formulaLines vocabLines : List String)
    (image_dir : String) (transform : Option (Img → Img)) :
    Except String DatasetState := do
  let formulas := formulaLines.map pySplit
  let rows := dataLines.map pySplit
  if rows ≠ [] ∧ minLen rows = 2 then
    let data ← rows.mapM (fun row => do
      let idx ← parsePyInt ((row.drop 1).headD "")
      pure ({ image := row.headD "", idx := idx } : DataRow))
    pure { formulas := formulas, data := data, vocab := buildVocab vocabLines,
           image_dir := image_dir, transform := transform }
  else
    Except.error "ValueError: 2 columns passed, passed data had a different number of columns"

/-- pandas positional indexing `.iloc[i]` on a frame with `n` rows: a
negative `i` counts from the end (`n + i`); any position outside
`[0, n)` raises `IndexError`. -/
def pyIloc {α : Type} (rows : List α) (i : Int) : Except String α :=
  if h : 0 ≤ (if i < 0 then (rows.length : Int) + i else i) ∧
      (if i < 0 then (rows.length : Int) + i else i) < (rows.length : Int) then
    Except.ok (rows.get ⟨(if i < 0 then (rows.length : Int) + i else i).toNat, by omega⟩)
  else
    Except.error "IndexError: single positional indexer is out-of-bounds"

/-- Line 50: `self.formulas.iloc[item.idx]` returns the row as a
one-column `Series` (see `FormulasRow`). -/
def ilocFormulas (formulas : List (List String)) (i : Int) : Except String FormulasRow :=
  (pyIloc formulas i).map (fun ts => [("tokens", ts)])

/-- The inner function `encode` (lines 69-70):
`return self.vocab(token, self.vocab['UNKNOWN'])`.
Python first evaluates the argument `self.vocab['UNKNOWN']` (raising
`KeyError` when the sentinel is absent) and then calls the dict
`self.vocab` itself as a function, which always raises `TypeError`,
whatever the token is: a dict is not callable.  (`dict.get`, which takes
exactly a key and a default, was evidently intended.) -/
def encode {α : Type} (vocab : List (String × Nat)) (_token : α) : Except String Nat :=
  match dictGet vocab "UNKNOWN" with
  | none => Except.error "KeyError: UNKNOWN"
  | some _ => Except.error "TypeError: dict object is not callable"

/-- `torch.zeros(n, m)` as a nested list of rationals. -/
def zerosMat (n m : Nat) : List (List ℚ) :=
  List.replicate n (List.replicate m (0 : ℚ))

/-- `TrainTestDataset._encode_tokens` (lines 64-75).  The argument is the
one-column `Series` row produced at line 50, so `len(formula)` is the
number of its cells and `map(encode, formula)` iterates over the cell
values.  `sequence[np.arange(len(formula)), tokens_idx] = 1.0` writes a 1
at column `tokens_idx[j]` of row `j`. -/
def _encode_tokens (vocab : List (String × Nat)) (formula : FormulasRow) :
    Except String (List (List ℚ)) := do
  let sequence := zerosMat formula.length vocab.length
  let tokens_idx ← formula.mapM (fun cell => encode vocab cell.2)
  pure ((sequence.zip tokens_idx).map (fun p => p.1.set p.2 (1 : ℚ)))

/-- Python `int(x)` on a float: truncation toward zero. -/
def pyInt (q : ℚ) : Int :=
  if q < 0 then Int.ceil q else Int.floor q

/-- Lines 82-84 of `_downsample_image`: `ratio = (np.random.randn() / 2) + 1`
(the drawn value `r` is passed in explicitly), then
`new_size = (int(old_size[0] / ratio), int(old_size[1] / ratio))`.
A ratio of exactly 0 raises `ZeroDivisionError` at the division. -/
def downsampleSize (w h : Nat) (r : ℚ) : Except String (Int × Int) :=
  let ratio := r / 2 + 1
  if ratio = 0 then
    Except.error "ZeroDivisionError: float division by zero"
  else
    Except.ok (pyInt ((w : ℚ) / ratio), pyInt ((h : ℚ) / ratio))

/-- `image.resize(new_size, PIL.Image.LANCZOS)` (line 85): a negative
target dimension raises `ValueError`; otherwise only the size changes. -/
def pilResize (_image : Img) (size : Int × Int) : Except String Img :=
  if size.1 < 0 ∨ size.2 < 0 then
    Except.error "ValueError: negative size in resize"
  else
    Except.ok { width := size.1.toNat, height := size.2.toNat }

/-- `TrainTestDataset._downsample_image` (lines 77-87), with the value `r`
drawn from `np.random.randn()` passed in explicitly. -/
def _downsample_image (image : Img) (r : ℚ) : Except String Img := do
  let new_size ← downsampleSize image.width image.height r
  pilResize image new_size

/-- `TrainTestDataset.__getitem__` (lines 47-62).  `openImage` stands for
`Image.open(...).convert('L')` (a missing file is an `Except.error`), `r`
for the per-access draw of `np.random.randn()` in `_downsample_image`. -/
def TrainTestDataset.getitem (st : DatasetState)
    (openImage : String → Except String Img) (r : ℚ) (index : Int) :
    Except String (Img × List (List ℚ) × Nat) := do
  let item ← pyIloc st.data index
  let formula ← ilocFormulas st.formulas item.idx
  let im_path := st.image_dir ++ "/" ++ item.image
  let image ← openImage im_path
  let seq_len := formula.length
  let image ← _downsample_image image r
  let image := match st.transform with
    | some t => t image
    | none => image
  let tokens ← _encode_tokens st.vocab formula
  pure (image, tokens, seq_len)

/-- The value bound to `seq_len` at line 53 of `__getitem__`:
`len(self.formulas.iloc[self.data.iloc[index].idx])`, i.e. the Python
length of the one-column `Series` row. -/
def seqLenAt (st : DatasetState) (index : Int) : Except String Nat := do
  let item ← pyIloc st.data index
  let formula ← ilocFormulas st.formulas item.idx
  pure formula.length

/-- Lines 49-50 of `__getitem__`: resolution of the Index Table row at
`index` and then of the Formula Table row at its `idx` field. -/
def resolveFormula (st : DatasetState) (index : Int) : Except String FormulasRow := do
  let item ← pyIloc st.data index
  ilocFormulas st.formulas item.idx

/-- `t.shape[1]` of a token tensor in the list model: the common row
length (the tensors reaching `collate` are `len × V` matrices). -/
def matShape1 (t : List (List ℚ)) : Nat :=
  (t.headD []).length

/-- `np.max` on a list of naturals; `collate` only applies it to a
nonempty tuple, for which folding `max` from 0 is the maximum. -/
def pyMaxNat (l : List Nat) : Nat :=
  l.foldl max 0

/-- Line 93: `torch.cat((t, torch.zeros(max_len - t.shape[0], t.shape[1])))`
— append `max_len - t.shape[0]` zero rows below `t`. -/
def padTokens (max_len : Nat) (t : List (List ℚ)) : List (List ℚ) :=
  t ++ zerosMat (max_len - t.length) (matShape1 t)

/-- The batch dictionary lines 95-99 attempt to build; never produced,
see `collate`. -/
structure Batch where
  images : List Img
  tokens : List (List (List ℚ))
  len : List Nat
deriving DecidableEq

/-- `collate` (lines 90-101).  `zip(*batch)` unpacks the samples
componentwise and raises `ValueError` on an empty batch; each token
matrix is extended with `torch.zeros(max_len - t.shape[0], t.shape[1])`
(a negative first dimension would raise).  The dict literal of lines
95-99 then evaluates `torch.tensor(images)` first: `torch.tensor` on a
sequence of PIL images, or of multi-element tensors (and the padded
token matrices of line 93-94 are multi-element `torch.cat` outputs, so
line 97 would raise the same way), cannot build a tensor and raises
`ValueError` — `torch.stack` was needed — so no batch dict is ever
returned. -/
def collate (batch : List (Img × List (List ℚ) × Nat)) (_device : String) :
    Except String Batch :=
  match batch with
  | [] => Except.error "ValueError: not enough values to unpack (expected 3, got 0)"
  | _ => do
    let tokens := batch.map (fun s => s.2.1)
    let seq_len := batch.map (fun s => s.2.2)
    let max_len := pyMaxNat seq_len
    let _padded ← tokens.mapM (fun t =>
      if t.length ≤ max_len then
        Except.ok (padTokens max_len t)
      else
        Except.error "RuntimeError: Trying to create tensor with negative dimension")
    Except.error "ValueError: only one element tensors can be converted to Python scalars"

/-- The batching driver of line 120-121, as far as this repository
configures it. -/
structure DataLoaderModel where
  dataset : DatasetState
  batch_size : Nat
  shuffle : Bool
  device : String

/-- `get_dataloader` (lines 104-122).  Its first statement is
`Compose(Resize((1024, 1024)), ToTensor(), Normalize((0.5), (1)))`;
torchvision's `Compose.__init__` takes a single list of transforms, so
this call with three positional arguments raises `TypeError` before
anything else runs.  (Were that repaired, the next statement
`TrainTestDataset(data_path, image_dir, formulas_path, vocab_path)`
omits the required fifth parameter `transform`, which has a type
annotation but no default, and raises `TypeError` as well — the built
pipeline is never passed to the dataset.)  Hence every call raises. -/
def get_dataloader (_dataLines _formulaLines _vocabLines : List String)
    (_device : String) (_shuffle : Bool) : Except String DataLoaderModel :=
  Except.error "TypeError: Compose.__init__() takes 2 positional arguments but 4 were given"

/-! Concrete data used by several theorems: the index file `img1.png 0`,
the formula file `a b c`, the vocabulary `a b c UNKNOWN`. -/

def demoDataLines : List String := ["img1.png 0"]

def demoFormulaLines : List String := ["a b c"]

def demoVocabLines : List String := ["a", "b", "c", "UNKNOWN"]

def demoInit : Except String DatasetState :=
  TrainTestDataset.init demoDataLines demoFormulaLines demoVocabLines "images" none

/-- The state `TrainTestDataset.init` builds from the demo files. -/
def demoState : DatasetState :=
  { formulas := [["a", "b", "c"]]
    data := [{ image := "img1.png", idx := 0 }]
    vocab := [("a", 0), ("b", 1), ("c", 2), ("UNKNOWN", 3)]
    image_dir := "images"
    transform := none }

/-- C1: the claim says a token absent from the vocabulary resolves to the
`UNKNOWN` index and never raises.  In the code, `encode` (line 70) calls
the dict `self.vocab` as a function, so it raises `TypeError` for every
token (or `KeyError` when `UNKNOWN` is itself absent); in particular, for
the out-of-vocabulary token `x` over the vocabulary `{a: 0, UNKNOWN: 1}`
it raises instead of returning the `UNKNOWN` index 1. -/
theorem encode_always_raises_type_error :
    (∀ (vocab : List (String × Nat)) (token : String),
      encode vocab token = Except.error "TypeError: dict object is not callable" ∨
      encode vocab token = Except.error "KeyError: UNKNOWN") ∧
    dictGet (buildVocab ["a", "UNKNOWN"]) "x" = none ∧
    dictGet (buildVocab ["a", "UNKNOWN"]) "UNKNOWN" = some 1 ∧
    encode (buildVocab ["a", "UNKNOWN"]) "x" =
      Except.error "TypeError: dict object is not callable" := by
  refine ⟨fun vocab token => ?_, rfl, rfl, rfl⟩
  unfold encode
  cases dictGet vocab "UNKNOWN" with
  | none => exact Or.inr rfl
  | some v => exact Or.inl rfl

/-- C2: the claim says the third component of the sample is the token
count of the referenced formula.  The code binds
`seq_len = len(formula)` (line 53) where `formula` is the row `Series` of
the one-column frame `self.formulas`, whose Python length is its column
count 1; for the formula `a b c` with 3 tokens the computed value is 1,
not 3 (and `__getitem__` then raises before returning anything at all,
see `getitem_raises_instead_of_one_hot`). -/
theorem seq_len_is_dataframe_column_count :
    demoInit.bind (fun st => seqLenAt st 0) = Except.ok 1 ∧
    (pySplit "a b c").length = 3 := ⟨rfl, rfl⟩

/-- C3: the claim says the sample at index 0 is a one-hot matrix of shape
3 × V with ones at the columns of `a`, `b`, `c`.  On exactly the claimed
input (index line `img1.png 0`, formula line `a b c`), `__getitem__`
raises `TypeError` inside `_encode_tokens` (the dict `self.vocab` is
called as a function at line 70) and returns no matrix. -/
theorem getitem_raises_instead_of_one_hot :
    demoInit.bind
        (fun st => TrainTestDataset.getitem st (fun _ => Except.ok ⟨64, 48⟩) 0 0) =
      Except.error "TypeError: dict object is not callable" := by
  have hds : _downsample_image ⟨64, 48⟩ (0 : ℚ) = Except.ok ⟨64, 48⟩ := by
    simp only [_downsample_image, downsampleSize, pilResize, pyInt]
    norm_num
    rfl
  have h1 : demoInit = Except.ok demoState := rfl
  rw [h1]
  show Except.bind (_downsample_image ⟨64, 48⟩ 0)
      (fun image =>
        Except.bind (_encode_tokens demoState.vocab [("tokens", ["a", "b", "c"])])
          (fun tokens => Except.ok (image, tokens, 1))) =
    Except.error "TypeError: dict object is not callable"
  rw [hds]
  rfl

/-- C4: the claim says `get_dataloader` configures the dataset with the
fixed transform pipeline and wraps it in a loader with batch size 8.  As
modelled from lines 104-122, every call raises `TypeError` at the
`Compose` call (three positional arguments for a parameter expecting one
list), and the dataset construction on line 119 omits the required
`transform` argument anyway, so no dataset or loader is ever built. -/
theorem get_dataloader_always_raises (dataLines formulaLines vocabLines : List String)
    (device : String) (shuffle : Bool) :
    get_dataloader dataLines formulaLines vocabLines device shuffle =
      Except.error "TypeError: Compose.__init__() takes 2 positional arguments but 4 were given" :=
  rfl

/-- C9: loading the same three file contents twice produces identical
Formula, Index and Vocabulary tables — `__init__` is a pure function of
the file contents, with no randomness at load time. -/
theorem init_deterministic (dataLines formulaLines vocabLines : List String)
    (image_dir : String) (transform : Option (Img → Img)) (st₁ st₂ : DatasetState)
    (h₁ : TrainTestDataset.init dataLines formulaLines vocabLines image_dir transform =
      Except.ok st₁)
    (h₂ : TrainTestDataset.init dataLines formulaLines vocabLines image_dir transform =
      Except.ok st₂) :
    st₁.formulas = st₂.formulas ∧ st₁.data = st₂.data ∧ st₁.vocab = st₂.vocab := by
  rw [h₁] at h₂
  cases h₂
  exact ⟨rfl, rfl, rfl⟩

/-- Witness for C9: the demo files load (twice) to the same concrete
tables. -/
theorem init_deterministic_witness :
    demoState.formulas = demoState.formulas ∧ demoState.data = demoState.data ∧
      demoState.vocab = demoState.vocab :=
  init_deterministic demoDataLines demoFormulaLines demoVocabLines "images" none
    demoState demoState (by rfl) (by rfl)

/-- Counterexample for C6: at image size 3 × 3 and draw `r = -6` the
ratio is `-2`; Python `int(3 / -2)` truncates toward zero to `-1`, while
the claimed `floor(3 / -2)` is `-2`, so the dimensions are not the floor
of `w / ratio`. -/
theorem downsample_floor_counterexample :
    downsampleSize 3 3 (-6) ≠
      Except.ok (⌊(3 : ℚ) / ((-6 : ℚ) / 2 + 1)⌋, ⌊(3 : ℚ) / ((-6 : ℚ) / 2 + 1)⌋) := by
  have hr : ((-6 : ℚ) / 2 + 1) = -2 := by norm_num
  have hval : downsampleSize 3 3 (-6) = Except.ok (-1, -1) := by
    simp only [downsampleSize, pyInt, hr]
    rw [if_neg (by norm_num : ¬(-2 : ℚ) = 0)]
    rw [if_pos (by push_cast; norm_num : ((3 : Nat) : ℚ) / (-2 : ℚ) < 0)]
    simp only [Except.ok.injEq, Prod.mk.injEq]
    constructor <;> (rw [Int.ceil_eq_iff]; push_cast; norm_num)
  rw [hval, show ⌊(3 : ℚ) / ((-6 : ℚ) / 2 + 1)⌋ = -2 by rw [hr]; norm_num]
  decide

/-- C6 (amended): the ratio is exactly `r / 2 + 1` with no clamping, and
the target dimensions are the truncations toward zero of `w / ratio` and
`h / ratio` (Python `int()`), which coincide with the claimed floors
whenever the ratio is positive; a ratio of exactly zero raises instead. -/
theorem downsample_trunc_dims (w h : Nat) (r : ℚ) (hρ : r / 2 + 1 ≠ 0) :
    downsampleSize w h r =
      Except.ok (pyInt ((w : ℚ) / (r / 2 + 1)), pyInt ((h : ℚ) / (r / 2 + 1))) ∧
    (0 < r / 2 + 1 →
      pyInt ((w : ℚ) / (r / 2 + 1)) = ⌊(w : ℚ) / (r / 2 + 1)⌋ ∧
      pyInt ((h : ℚ) / (r / 2 + 1)) = ⌊(h : ℚ) / (r / 2 + 1)⌋) := by
  constructor
  · unfold downsampleSize
    rw [if_neg hρ]
  · intro hpos
    constructor
    · unfold pyInt
      rw [if_neg (not_lt.mpr (div_nonneg (Nat.cast_nonneg w) (le_of_lt hpos)))]
    · unfold pyInt
      rw [if_neg (not_lt.mpr (div_nonneg (Nat.cast_nonneg h) (le_of_lt hpos)))]

/-! Reduction lemmas for the `Except` monad used by the general
theorems. -/

theorem except_ok_bind {α β : Type} (a : α) (f : α → Except String β) :
    (Except.ok a : Except String α) >>= f = f a := rfl

theorem except_error_bind {α β : Type} (e : String) (f : α → Except String β) :
    (Except.error e : Except String α) >>= f = Except.error e := rfl

theorem except_map_ok {α β : Type} (a : α) (f : α → β) :
    (Except.ok a : Except String α).map f = Except.ok (f a) := rfl

theorem except_map_error {α β : Type} (e : String) (f : α → β) :
    (Except.error e : Except String α).map f = Except.error e := rfl

/-- The spec's example batch for the Batch Assembler: one-hot matrices
with 3, 5 and 2 rows (2 columns) and sequence lengths `[3, 5, 2]`. -/
def demoBatch : List (Img × List (List ℚ) × Nat) :=
  [(⟨4, 4⟩, zerosMat 3 2, 3), (⟨4, 4⟩, zerosMat 5 2, 5), (⟨4, 4⟩, zerosMat 2 2, 2)]

/-- C5: the claim says the assembled token array holds each sample's
matrix padded with zero rows to the batch maximum (5 for lengths
`[3, 5, 2]`) with the original lengths returned in order.  In the code,
after the per-sample `torch.cat` padding of lines 93-94, the dict literal
of lines 95-99 calls `torch.tensor` on a sequence of images and on the
sequence of padded multi-element matrices, which raises `ValueError`
(`torch.stack` was needed), so `collate` returns no token array and no
length list for the claim's example batch — even though the padding step
itself had produced 5-row matrices. -/
theorem collate_raises_instead_of_stacking :
    collate demoBatch "cpu" =
      Except.error "ValueError: only one element tensors can be converted to Python scalars" ∧
    (demoBatch.map (fun s => padTokens (pyMaxNat (demoBatch.map (fun t => t.2.2))) s.2.1)).map
        List.length = [5, 5, 5] := ⟨rfl, rfl⟩

/-- C8: when the Index Table row found at `index` carries a formula ID
equal to the number of formulas (one past the end), `__getitem__` raises
`IndexError` at the Formula Table lookup — it neither wraps around nor
clamps. -/
theorem getitem_formula_id_one_past_end_raises (st : DatasetState)
    (openImage : String → Except String Img) (r : ℚ) (index : Int) (item : DataRow)
    (hitem : pyIloc st.data index = Except.ok item)
    (hidx : item.idx = (st.formulas.length : Int)) :
    TrainTestDataset.getitem st openImage r index =
      Except.error "IndexError: single positional indexer is out-of-bounds" := by
  have hc : ¬(0 ≤ (if item.idx < 0 then (st.formulas.length : Int) + item.idx else item.idx) ∧
      (if item.idx < 0 then (st.formulas.length : Int) + item.idx else item.idx) <
        (st.formulas.length : Int)) := by
    rw [hidx, if_neg (by omega : ¬((st.formulas.length : Int) < 0))]
    omega
  have hfl : pyIloc st.formulas item.idx =
      (Except.error "IndexError: single positional indexer is out-of-bounds"
        : Except String (List String)) := by
    unfold pyIloc
    exact dif_neg hc
  simp only [TrainTestDataset.getitem, ilocFormulas, hitem, except_ok_bind, hfl,
    except_map_error, except_error_bind]

/-- The state built from index line `img1.png 1` (formula ID one past
the end of a one-formula table). -/
def oobState : DatasetState :=
  { formulas := [["a", "b"]]
    data := [{ image := "img1.png", idx := 1 }]
    vocab := [("UNKNOWN", 0)]
    image_dir := "images"
    transform := none }

/-- Witness for C8: a one-formula table addressed with formula ID 1. -/
theorem getitem_formula_id_one_past_end_raises_witness :
    TrainTestDataset.getitem oobState (fun _ => Except.ok ⟨8, 8⟩) 0 0 =
      Except.error "IndexError: single positional indexer is out-of-bounds" :=
  getitem_formula_id_one_past_end_raises oobState (fun _ => Except.ok ⟨8, 8⟩) 0 0
    { image := "img1.png", idx := 1 } (by decide) (by decide)

/-- C10: a negative formula ID `d` with `-n ≤ d < 0` (`n` the number of
formulas) does not raise: `.iloc` positional lookup resolves it to the
formula at row `n + d`, counting from the end. -/
theorem negative_formula_id_resolves_from_end (st : DatasetState) (index : Int)
    (item : DataRow) (d : Int)
    (hitem : pyIloc st.data index = Except.ok item)
    (hd : item.idx = d) (hlow : -(st.formulas.length : Int) ≤ d) (hneg : d < 0) :
    ∃ ts, st.formulas.get? ((st.formulas.length : Int) + d).toNat = some ts ∧
      resolveFormula st index = Except.ok [("tokens", ts)] := by
  have hn : ((st.formulas.length : Int) + d).toNat < st.formulas.length := by omega
  refine ⟨st.formulas.get ⟨((st.formulas.length : Int) + d).toNat, hn⟩,
    List.get?_eq_get hn, ?_⟩
  have hpy : pyIloc st.formulas d =
      Except.ok (st.formulas.get ⟨((st.formulas.length : Int) + d).toNat, hn⟩) := by
    unfold pyIloc
    simp only [if_pos hneg]
    rw [dif_pos ⟨by omega, by omega⟩]
  simp only [resolveFormula, ilocFormulas, hitem, except_ok_bind, hd, hpy, except_map_ok]

/-- The state built from index line `img1.png -1` over a one-formula
table. -/
def negState : DatasetState :=
  { formulas := [["a", "b"]]
    data := [{ image := "img1.png", idx := -1 }]
    vocab := [("UNKNOWN", 0)]
    image_dir := "images"
    transform := none }

/-- Witness for C10: the index file parses `-1` with its sign, and the
lookup resolves it to row 0 (= 1 + (-1)) of the one-formula table. -/
theorem negative_formula_id_resolves_from_end_witness :
    TrainTestDataset.init ["img1.png -1"] ["a b"] ["UNKNOWN"] "images" none =
        Except.ok negState ∧
    ∃ ts, negState.formulas.get? ((negState.formulas.length : Int) + (-1)).toNat = some ts ∧
      resolveFormula negState 0 = Except.ok [("tokens", ts)] :=
  ⟨by rfl,
    negative_formula_id_resolves_from_end negState 0 { image := "img1.png", idx := -1 } (-1)
      (by decide) rfl (by decide) (by decide)⟩

/-- Witness for C6: a 10 × 7 image with draw `r = 1` (ratio `3/2`). -/
theorem downsample_trunc_dims_witness :
    ((1 : ℚ) / 2 + 1 ≠ 0) ∧
    (downsampleSize 10 7 1 =
        Except.ok (pyInt (((10 : Nat) : ℚ) / ((1 : ℚ) / 2 + 1)),
          pyInt (((7 : Nat) : ℚ) / ((1 : ℚ) / 2 + 1))) ∧
      (0 < (1 : ℚ) / 2 + 1 →
        pyInt (((10 : Nat) : ℚ) / ((1 : ℚ) / 2 + 1)) =
          ⌊((10 : Nat) : ℚ) / ((1 : ℚ) / 2 + 1)⌋ ∧
        pyInt (((7 : Nat) : ℚ) / ((1 : ℚ) / 2 + 1)) =
          ⌊((7 : Nat) : ℚ) / ((1 : ℚ) / 2 + 1)⌋)) :=
  ⟨by norm_num, downsample_trunc_dims 10 7 1 (by norm_num)⟩

/-- When no key of the accumulator collides with an upcoming entry and
the upcoming keys are distinct, the dict-comprehension fold only
appends. -/
theorem buildDict_foldl : ∀ (ps : List (Nat × String)) (acc : List (String × Nat)),
    (∀ p ∈ ps, ∀ q ∈ acc, q.1 ≠ p.2) → (ps.map Prod.snd).Nodup →
    ps.foldl (fun d p => dictInsert d p.2 p.1) acc =
      acc ++ ps.map (fun p => (p.2, p.1)) := by
  intro ps
  induction ps with
  | nil =>
    intro acc _ _
    simp
  | cons p t ih =>
    intro acc hdisj hnd
    have hnd' : ((p :: t).map Prod.snd).Nodup := hnd
    rw [List.map_cons, List.nodup_cons] at hnd'
    have hnotin : ¬ acc.any (fun q => q.1 = p.2) = true := by
      simp only [List.any_eq_true]
      rintro ⟨q, hq, hq2⟩
      exact hdisj p (List.mem_cons_self p t) q hq (of_decide_eq_true hq2)
    have h1 : dictInsert acc p.2 p.1 = acc ++ [(p.2, p.1)] := by
      unfold dictInsert
      rw [if_neg hnotin]
    rw [List.foldl_cons, h1, ih (acc ++ [(p.2, p.1)]) ?_ hnd'.2]
    · simp
    · intro x hx q hq
      rcases List.mem_append.mp hq with hq | hq
      · exact hdisj x (List.mem_cons_of_mem p hx) q hq
      · have hq' : q = (p.2, p.1) := List.mem_singleton.mp hq
        subst hq'
        intro he
        apply hnd'.1
        have hx2 : x.2 ∈ t.map Prod.snd := List.mem_map_of_mem Prod.snd hx
        rwa [show p.2 = x.2 from he]

/-- Looking a distinct key list up in the reversed-pair enumeration
finds the key's position. -/
theorem dictGet_enumFrom_swap (l : List String) :
    l.Nodup → ∀ (k i : Nat) (h : i < l.length),
      dictGet ((l.enumFrom k).map (fun p => (p.2, p.1))) (l.get ⟨i, h⟩) = some (k + i) := by
  induction l with
  | nil =>
    intro _ k i h
    exact absurd h (Nat.not_lt_zero i)
  | cons a t ih =>
    intro hl k i h
    obtain ⟨ha, ht⟩ := List.nodup_cons.mp hl
    cases i with
    | zero =>
      show dictGet ((a, k) :: (t.enumFrom (k + 1)).map (fun p => (p.2, p.1))) a = some (k + 0)
      unfold dictGet
      rw [List.find?_cons_of_pos _ (by simp)]
      rfl
    | succ j =>
      have hj : j < t.length := Nat.lt_of_succ_lt_succ h
      have hne : ¬ (a = t.get ⟨j, hj⟩) := fun he => ha (he ▸ List.get_mem t j hj)
      show dictGet ((a, k) :: (t.enumFrom (k + 1)).map (fun p => (p.2, p.1)))
        (t.get ⟨j, hj⟩) = some (k + (j + 1))
      unfold dictGet
      rw [List.find?_cons_of_neg _ (by simpa using hne)]
      have := ih ht (k + 1) j hj
      unfold dictGet at this
      rw [this]
      rw [Nat.add_assoc, Nat.add_comm 1 j]

/-- C7: loading the vocabulary lines `a`, `b`, `UNKNOWN` produces exactly
the mapping `{a: 0, b: 1, UNKNOWN: 2}`; in general, over lines whose
trimmed forms are distinct, each line's trimmed token is mapped to its
0-based line number. -/
theorem vocab_line_number_is_index :
    buildVocab ["a", "b", "UNKNOWN"] = [("a", 0), ("b", 1), ("UNKNOWN", 2)] ∧
    ∀ (lines : List String), (lines.map pyStrip).Nodup →
      ∀ (i : Nat) (h : i < lines.length),
        dictGet (buildVocab lines) (pyStrip (lines.get ⟨i, h⟩)) = some i := by
  refine ⟨rfl, fun lines hnd i h => ?_⟩
  have hb : buildVocab lines = ((lines.map pyStrip).enum).map (fun p => (p.2, p.1)) := by
    unfold buildVocab
    rw [buildDict_foldl ((lines.map pyStrip).enum) [] (by simp)
      (by rw [List.enum_map_snd]; exact hnd)]
    simp
  have hi : i < (lines.map pyStrip).length := by simpa using h
  have hget : (lines.map pyStrip).get ⟨i, hi⟩ = pyStrip (lines.get ⟨i, h⟩) :=
    List.get_map pyStrip
  rw [hb, ← hget]
  simpa using dictGet_enumFrom_swap (lines.map pyStrip) hnd 0 i hi

/-- Witness for C7: the two-line vocabulary file `x`, ` y ` (the second
line carrying surrounding whitespace) maps the trimmed second token to
line number 1. -/
theorem vocab_line_number_is_index_witness :
    buildVocab ["a", "b", "UNKNOWN"] = [("a", 0), ("b", 1), ("UNKNOWN", 2)] ∧
    dictGet (buildVocab ["x", " y "]) (pyStrip (["x", " y "].get ⟨1, by decide⟩)) = some 1 :=
  ⟨vocab_line_number_is_index.1,
    vocab_line_number_is_index.2 ["x", " y "] (by decide) 1 (by decide)⟩

end PdfToLatex
